import Mathlib

set_option maxRecDepth 100000

/-!
# Verification of the authentication-integrity core (nestjs-template)

Shallow embedding of the repository's authentication core:

* `AuthService` (OTP issuance/verification, two-factor enrollment,
  refresh-token ledger) from `src/core/services/auth.service.ts`;
* `PermissionRepository` from the Prisma-backed permission repository;
* `JwtStrategy.validate` from
  `src/presentation/modules/auth/strategies/jwt.strategy.ts`.

Machine integers are modelled as `Nat` with explicit `% 2 ^ 32` where the
source's 32-bit wrapping matters; byte strings are `List Nat` with every
element below 256.  Time is a `Nat` count of seconds, passed explicitly
where the source reads the wall clock.  Fallible operations return
`Except DomainError α`; operations that may also write return the
post-state alongside, since in the source a thrown domain exception
aborts the request but leaves all earlier repository writes in place.

The TOTP verification performed by the `speakeasy` dependency is embedded
concretely: `speakeasy.totp.verify` computes HOTP (RFC 4226: dynamic
truncation of HMAC-SHA-1 of the big-endian 8-byte counter) at every
counter in the window `[⌊t/step⌋ - window, ⌊t/step⌋ + window]` and
accepts iff one of those codes equals the presented token; when the
caller passes no `window` option — as `AuthService` does at every call
site — `speakeasy` defaults the window to `0`.  The SHA-1 compression,
HMAC construction and dynamic truncation below follow FIPS 180-1 /
RFC 2104 / RFC 4226 and are checked against the RFC 4226 test vectors.
-/

/-! ## SHA-1 over byte lists -/

/-- `2 ^ 32`, the modulus for 32-bit word arithmetic. -/
def u32 : Nat := 4294967296

/-- Left-rotation of a 32-bit word by `n` bits. -/
def rotl (n x : Nat) : Nat := ((x <<< n) ||| (x >>> (32 - n))) % u32

/-- Big-endian 8-byte encoding of a (64-bit) natural number. -/
def be8 (n : Nat) : List Nat :=
  [n >>> 56 % 256, n >>> 48 % 256, n >>> 40 % 256, n >>> 32 % 256,
   n >>> 24 % 256, n >>> 16 % 256, n >>> 8 % 256, n % 256]

/-- Group a byte list into big-endian 32-bit words (4 bytes each). -/
def toWords : List Nat → List Nat
  | a :: b :: c :: d :: rest => (((a * 256 + b) * 256 + c) * 256 + d) :: toWords rest
  | _ => []

/-- SHA-1 padding: append `0x80`, zeros to 56 mod 64, then the bit length
as 8 big-endian bytes. -/
def sha1Pad (msg : List Nat) : List Nat :=
  msg ++ 128 :: List.replicate ((119 - msg.length % 64) % 64) 0 ++ be8 (msg.length * 8)

/-- Split into 64-byte blocks; the fuel argument is the list length. -/
def chunks64 : Nat → List Nat → List (List Nat)
  | _, [] => []
  | 0, _ => []
  | fuel + 1, l => l.take 64 :: chunks64 fuel (l.drop 64)

/-- Message-schedule expansion, most-recent-word-first sliding window:
produces the words `w[16] … w[79]` given the window of the previous 16
words (`w[i-1]` first). -/
def sha1ScheduleFrom : Nat → List Nat → List Nat
  | 0, _ => []
  | fuel + 1, window =>
    let w := rotl 1 ((window.getD 2 0 ^^^ window.getD 7 0) ^^^
      (window.getD 13 0 ^^^ window.getD 15 0))
    w :: sha1ScheduleFrom fuel (w :: window.take 15)

/-- Message-schedule expansion: extend the 16 block words to 80. -/
def sha1Schedule (ws : List Nat) : List Nat :=
  ws ++ sha1ScheduleFrom 64 ws.reverse

/-- The SHA-1 round function `f` for round `i`. -/
def sha1F (i b c d : Nat) : Nat :=
  if i < 20 then (b &&& c) ||| ((b ^^^ 4294967295) &&& d)
  else if i < 40 then (b ^^^ c) ^^^ d
  else if i < 60 then ((b &&& c) ||| (b &&& d)) ||| (c &&& d)
  else (b ^^^ c) ^^^ d

/-- The SHA-1 round constant `K` for round `i`. -/
def sha1K (i : Nat) : Nat :=
  if i < 20 then 0x5A827999
  else if i < 40 then 0x6ED9EBA1
  else if i < 60 then 0x8F1BBCDC
  else 0xCA62C1D6

/-- The 80 SHA-1 rounds, consuming the message schedule; `i` is the
round index. -/
def sha1Rounds : Nat → List Nat → Nat × Nat × Nat × Nat × Nat → Nat × Nat × Nat × Nat × Nat
  | _, [], s => s
  | i, w :: ws, (a, b, c, d, e) =>
    sha1Rounds (i + 1) ws
      ((rotl 5 a + sha1F i b c d + e + sha1K i + w) % u32, a, rotl 30 b, c, d)

/-- One SHA-1 compression over a 64-byte block. -/
def sha1Compress (h : Nat × Nat × Nat × Nat × Nat) (block : List Nat) :
    Nat × Nat × Nat × Nat × Nat :=
  let (h0, h1, h2, h3, h4) := h
  let (a, b, c, d, e) := sha1Rounds 0 (sha1Schedule (toWords block)) (h0, h1, h2, h3, h4)
  ((h0 + a) % u32, (h1 + b) % u32, (h2 + c) % u32, (h3 + d) % u32, (h4 + e) % u32)

/-- Big-endian 4-byte serialization of a 32-bit word. -/
def wordBytes (w : Nat) : List Nat :=
  [w >>> 24 % 256, w >>> 16 % 256, w >>> 8 % 256, w % 256]

/-- SHA-1 of a byte list, as the 20-byte digest (FIPS 180-1). -/
def sha1 (msg : List Nat) : List Nat :=
  let padded := sha1Pad msg
  let (h0, h1, h2, h3, h4) :=
    (chunks64 padded.length padded).foldl sha1Compress
      (0x67452301, 0xEFCDAB89, 0x98BADCFE, 0x10325476, 0xC3D2E1F0)
  wordBytes h0 ++ wordBytes h1 ++ wordBytes h2 ++ wordBytes h3 ++ wordBytes h4

/-! ## HMAC-SHA-1 and HOTP / TOTP (the speakeasy dependency) -/

/-- HMAC-SHA-1 (RFC 2104): keys longer than the 64-byte block are hashed
first, then padded with zeros; inner pad `0x36`, outer pad `0x5c`. -/
def hmacSha1 (key msg : List Nat) : List Nat :=
  let k := if key.length > 64 then sha1 key else key
  let k64 := k ++ List.replicate (64 - k.length) 0
  sha1 ((k64.map (fun b => b ^^^ 0x5c)) ++ sha1 ((k64.map (fun b => b ^^^ 0x36)) ++ msg))

/-- RFC 4226 dynamic truncation of a 20-byte HMAC digest. -/
def dynamicTruncate (digest : List Nat) : Nat :=
  let offset := digest.getD 19 0 &&& 15
  (((digest.getD offset 0 &&& 127) <<< 24) ||| (digest.getD (offset + 1) 0 <<< 16)) |||
    ((digest.getD (offset + 2) 0 <<< 8) ||| digest.getD (offset + 3) 0)

/-- The HOTP code for a secret and counter, reduced to `digits` decimal
digits (RFC 4226).  Codes are modelled as the numeric value of the
zero-padded decimal string `speakeasy` produces, so two generated codes
are equal as strings iff they are equal as numbers here. -/
def hotpCode (secret : List Nat) (counter digits : Nat) : Nat :=
  dynamicTruncate (hmacSha1 secret (be8 counter)) % 10 ^ digits

/-- The TOTP code at unix time `time` seconds: HOTP at counter
`⌊time / step⌋` (`speakeasy.totp`). -/
def totpCode (secret : List Nat) (time step digits : Nat) : Nat :=
  hotpCode secret (time / step) digits

/-- `speakeasy.totp.verify` with an explicit window: the presented token
is accepted iff it equals the HOTP code at some counter in
`[⌊time/step⌋ - window, ⌊time/step⌋ + window]` (comparison performed with
`crypto.timingSafeEqual`, which is observationally plain equality). -/
def totpVerifyWindow (secret : List Nat) (token time step digits window : Nat) : Bool :=
  (List.range (2 * window + 1)).any
    (fun i => hotpCode secret (time / step - window + i) digits == token)

/-- `speakeasy.totp.verify` as `AuthService` invokes it: no `window`
option is passed at any call site, and `speakeasy` defaults the window
to `0`. -/
def totpVerify (secret : List Nat) (token time step digits : Nat) : Bool :=
  totpVerifyWindow secret token time step digits 0

/-- The RFC 4226 test secret, the ASCII bytes of
`12345678901234567890`. -/
def rfcSecret : List Nat :=
  [49, 50, 51, 52, 53, 54, 55, 56, 57, 48, 49, 50, 51, 52, 53, 54, 55, 56, 57, 48]

/-! ## Domain entities

The entity classes live in `src/core/entities/*.entity.ts`, which is not
part of the provided sources; only their call sites in `AuthService`
are.  They are modelled from the spec (§3 data model, §4 component
design). -/

/-- Modelled from the spec: the `Otp` entity of §3 — owning user id,
base32 secret (modelled as its decoded byte string), expiry time
(creation + configured expiration) and `verified` flag.  `isExpired`
realises §4.1's "Fails `OtpExpired` if `now > expiresAt`". -/
structure Otp where
  userId : String
  secret : List Nat
  expiresAt : Nat
  verified : Bool
  deriving DecidableEq, Repr

/-- `otp.isExpired()`: the current time is past the expiry time. -/
def Otp.isExpired (o : Otp) (now : Nat) : Bool := decide (now > o.expiresAt)

/-- `otp.markAsVerified()`: set the `verified` flag. -/
def Otp.markAsVerified (o : Otp) : Otp := { o with verified := true }

/-- Modelled from the spec: the `RefreshToken` entity of §3 — owning
user id, opaque token value, expiry time, `revoked` flag. -/
structure RefreshToken where
  userId : String
  token : String
  expiresAt : Nat
  revoked : Bool
  deriving DecidableEq, Repr

/-- `refreshToken.isExpired()`: the current time is past the expiry. -/
def RefreshToken.isExpired (rt : RefreshToken) (now : Nat) : Bool :=
  decide (now > rt.expiresAt)

/-- `refreshToken.isRevoked()`: the `revoked` flag. -/
def RefreshToken.isRevoked (rt : RefreshToken) : Bool := rt.revoked

/-- `refreshToken.revoke()`: set the `revoked` flag. -/
def RefreshToken.revoke (rt : RefreshToken) : RefreshToken := { rt with revoked := true }

/-- Modelled from the spec: the `User` aggregate fields this core reads
and writes (§3) — `isActive`, `otpEnabled`, optional `otpSecret` (again
as decoded bytes), `lastLoginAt`. -/
structure User where
  id : String
  email : String
  isActive : Bool
  otpEnabled : Bool
  otpSecret : Option (List Nat)
  lastLoginAt : Option Nat
  deriving DecidableEq, Repr

/-- `user.enableOtp(secret)`: store the persistent 2FA secret and set
the flag (§4.2 `setupTwoFactorAuth`). -/
def User.enableOtp (u : User) (secret : List Nat) : User :=
  { u with otpEnabled := true, otpSecret := some secret }

/-- `user.disableOtp()`: clear the secret and the flag (§4.2
`disableTwoFactorAuth`: "Clears the secret and flag"). -/
def User.disableOtp (u : User) : User :=
  { u with otpEnabled := false, otpSecret := none }

/-- The `Permission` record persisted by `PermissionRepository`
(per the Prisma row: id, name, description, resource, action plus
timestamps). -/
structure Permission where
  id : String
  name : String
  description : String
  resource : String
  action : String
  createdAt : Nat
  updatedAt : Nat
  deriving DecidableEq, Repr

/-! ## Persistent stores

The concrete persistence engine is out of scope; §6 fixes its read/write
contract.  Each store is modelled as a list of records. -/

/-- Modelled from the spec: the shared persistent store behind the §6
collaborator contracts — user store, Otp store, RefreshToken store. -/
structure Store where
  users : List User
  otps : List Otp
  refreshTokens : List RefreshToken
  deriving DecidableEq, Repr

/-- User store `findById(id) → User?` (§6). -/
def Store.findUserById (st : Store) (id : String) : Option User :=
  st.users.find? (fun u => u.id == id)

/-- User store `update(User) → User` (§6): replace the record with the
same id. -/
def Store.updateUser (st : Store) (u : User) : Store :=
  { st with users := st.users.map (fun x => if x.id == u.id then u else x) }

/-- Otp store `findByUserId(id) → Otp?` (§6). -/
def Store.findOtpByUserId (st : Store) (userId : String) : Option Otp :=
  st.otps.find? (fun o => o.userId == userId)

/-- Otp store `update(Otp)` (§6): replace the stored challenge for the
same user (§9: `findByUserId` implies at most one live challenge per
user). -/
def Store.updateOtp (st : Store) (o : Otp) : Store :=
  { st with otps := st.otps.map (fun x => if x.userId == o.userId then o else x) }

/-- RefreshToken store `findByToken(value) → RefreshToken?` (§6); token
values are globally unique (§3). -/
def Store.findRefreshTokenByToken (st : Store) (token : String) : Option RefreshToken :=
  st.refreshTokens.find? (fun rt => rt.token == token)

/-- RefreshToken store `deleteByUserId(id)` (§6): remove every token
owned by the user. -/
def Store.deleteRefreshTokensByUserId (st : Store) (userId : String) : Store :=
  { st with refreshTokens := st.refreshTokens.filter (fun rt => !(rt.userId == userId)) }

/-- RefreshToken store `create(RefreshToken)` (§6). -/
def Store.createRefreshTokenRecord (st : Store) (rt : RefreshToken) : Store :=
  { st with refreshTokens := rt :: st.refreshTokens }

/-- RefreshToken store `update(RefreshToken)` (§6): replace the record
with the same (globally unique) token value. -/
def Store.updateRefreshToken (st : Store) (rt : RefreshToken) : Store :=
  { st with refreshTokens := st.refreshTokens.map (fun x => if x.token == rt.token then rt else x) }

/-! ## Error taxonomy

`@core/exceptions/domain-exceptions` is not among the provided sources;
the taxonomy is §7's.  `AuthenticationException` carries the message
string the `AuthService` call sites pass. -/

/-- Modelled from the spec: §7 error taxonomy.  `authFailure` carries
the source's message string, which determines the §7 `reason`. -/
inductive DomainError where
  | entityNotFound (entity : String)
  | otpExpired
  | otpInvalid
  | authFailure (message : String)
  | unauthorized (message : String)
  deriving DecidableEq, Repr

/-- Equality of `Except` results is decidable componentwise; needed to
evaluate the operations on concrete inputs. -/
instance {e a : Type} [DecidableEq e] [DecidableEq a] : DecidableEq (Except e a) :=
  fun x y =>
    match x, y with
    | .error u, .error v =>
      if h : u = v then isTrue (by rw [h]) else isFalse (fun hc => h (Except.error.inj hc))
    | .error _, .ok _ => isFalse (fun hc => Except.noConfusion hc)
    | .ok _, .error _ => isFalse (fun hc => Except.noConfusion hc)
    | .ok u, .ok v =>
      if h : u = v then isTrue (by rw [h]) else isFalse (fun hc => h (Except.ok.inj hc))

/-- OTP configuration (`otpConfig` getter): step seconds (default 30)
and code digits (default 6). -/
structure OtpConfig where
  step : Nat
  digits : Nat
  deriving DecidableEq, Repr

/-- The configuration defaults: `OTP_STEP` 30, `OTP_DIGITS` 6. -/
def defaultOtpConfig : OtpConfig := { step := 30, digits := 6 }

/-! ## AuthService (`src/core/services/auth.service.ts`)

Each operation takes the store and the current time explicitly and
returns its result together with the post-state: a thrown domain
exception ends the operation but keeps every repository write already
performed.  Presented OTP tokens are the numeric value of the decimal
code string (see `hotpCode`). -/

/-- `AuthService.verifyOtp(userId, token)`: look up the user (else
`EntityNotFoundException('User', userId)`), the stored Otp (else
`EntityNotFoundException('OTP')`), fail `OtpExpiredException` when
expired, then `speakeasy.totp.verify` with the configured step and
digits and no window; on match mark the Otp verified, persist it and
return `true`, on mismatch throw `OtpInvalidException`. -/
def verifyOtp (cfg : OtpConfig) (st : Store) (now : Nat) (userId : String) (token : Nat) :
    Except DomainError Bool × Store :=
  match st.findUserById userId with
  | none => (.error (.entityNotFound "User"), st)
  | some _ =>
    match st.findOtpByUserId userId with
    | none => (.error (.entityNotFound "OTP"), st)
    | some otp =>
      if otp.isExpired now then (.error .otpExpired, st)
      else if totpVerify otp.secret token now cfg.step cfg.digits then
        (.ok true, st.updateOtp otp.markAsVerified)
      else (.error .otpInvalid, st)

/-- `AuthService.verifyTwoFactorToken(userId, token)`: look up the user
(else `EntityNotFoundException`), throw `AuthenticationException` when
`!user.otpEnabled || !user.otpSecret`, then `speakeasy.totp.verify` on
the user's persistent secret with no window; `true` on match,
`OtpInvalidException` on mismatch.  No store write on any path. -/
def verifyTwoFactorToken (cfg : OtpConfig) (st : Store) (now : Nat) (userId : String)
    (token : Nat) : Except DomainError Bool :=
  match st.findUserById userId with
  | none => .error (.entityNotFound "User")
  | some user =>
    if !user.otpEnabled then
      .error (.authFailure "Two-factor authentication is not enabled for this user")
    else
      match user.otpSecret with
      | none => .error (.authFailure "Two-factor authentication is not enabled for this user")
      | some secret =>
        if totpVerify secret token now cfg.step cfg.digits then .ok true
        else .error .otpInvalid

/-- `AuthService.disableTwoFactorAuth(userId)`: look up the user (else
`EntityNotFoundException`), clear secret and flag via `user.disableOtp()`
and persist through the user store, returning the updated user. -/
def disableTwoFactorAuth (st : Store) (userId : String) :
    Except DomainError User × Store :=
  match st.findUserById userId with
  | none => (.error (.entityNotFound "User"), st)
  | some user => (.ok user.disableOtp, st.updateUser user.disableOtp)

/-- `AuthService.createRefreshToken(userId, token)`: unconditionally
`deleteByUserId(userId)` on the RefreshToken store, then create and
insert a fresh token expiring `refreshExpirationDays` (default 7) after
`now`.  No user-existence check: the user store is never consulted. -/
def createRefreshToken (refreshExpirationDays : Nat) (st : Store) (now : Nat)
    (userId token : String) : Except DomainError RefreshToken × Store :=
  let st1 := st.deleteRefreshTokensByUserId userId
  let rt : RefreshToken :=
    { userId := userId, token := token,
      expiresAt := now + refreshExpirationDays * 86400, revoked := false }
  (.ok rt, st1.createRefreshTokenRecord rt)

/-- `AuthService.validateRefreshToken(token)`: find by token value (else
`AuthenticationException('Invalid refresh token')`), then expiry check
(`'Refresh token has expired'`), then revocation check
(`'Refresh token has been revoked'`), else return the token.  Pure
read. -/
def validateRefreshToken (st : Store) (now : Nat) (token : String) :
    Except DomainError RefreshToken :=
  match st.findRefreshTokenByToken token with
  | none => .error (.authFailure "Invalid refresh token")
  | some rt =>
    if rt.isExpired now then .error (.authFailure "Refresh token has expired")
    else if rt.isRevoked then .error (.authFailure "Refresh token has been revoked")
    else .ok rt

/-- `AuthService.revokeRefreshToken(token)`: find by token value (else
`AuthenticationException('Invalid refresh token')`); return immediately
when already revoked; otherwise set the flag and persist. -/
def revokeRefreshToken (st : Store) (token : String) :
    Except DomainError Unit × Store :=
  match st.findRefreshTokenByToken token with
  | none => (.error (.authFailure "Invalid refresh token"), st)
  | some rt =>
    if rt.isRevoked then (.ok (), st)
    else (.ok (), st.updateRefreshToken rt.revoke)

/-! ## JwtStrategy (`jwt.strategy.ts`) -/

/-- A decoded access-token payload: the subject claim plus the remaining
claims, which `validate` passes through untouched. -/
structure JwtPayload where
  sub : String
  claims : List (String × String)
  deriving DecidableEq, Repr

/-- `JwtStrategy.validate(payload)`: re-fetch the user with id
`payload.sub`; throw `UnauthorizedException` when absent or inactive;
otherwise return the payload unchanged. -/
def jwtValidate (st : Store) (payload : JwtPayload) : Except DomainError JwtPayload :=
  match st.findUserById payload.sub with
  | none => .error (.unauthorized "User no longer active or not found")
  | some user =>
    if !user.isActive then .error (.unauthorized "User no longer active or not found")
    else .ok payload

/-! ## PermissionRepository (Prisma-backed) -/

/-- The Prisma `permission` table, as a list of rows. -/
abbrev PermissionTable := List Permission

/-- `mapToModel(record)`: rebuild the domain `Permission` from the row —
constructor fields name/description/resource/action, then id and the
timestamps are copied over. -/
def mapToModel (record : Permission) : Permission :=
  { id := record.id, name := record.name, description := record.description,
    resource := record.resource, action := record.action,
    createdAt := record.createdAt, updatedAt := record.updatedAt }

/-- `PermissionRepository.findById(id)`: `findUnique` on id, `null` on
miss, else `mapToModel`. -/
def permFindById (table : PermissionTable) (id : String) : Option Permission :=
  (table.find? (fun p => p.id == id)).map mapToModel

/-- `PermissionRepository.findByName(name)`: `findUnique` on the unique
name, `null` on miss, else `mapToModel`. -/
def permFindByName (table : PermissionTable) (name : String) : Option Permission :=
  (table.find? (fun p => p.name == name)).map mapToModel

/-- `PermissionRepository.findAll()`: every row, mapped. -/
def permFindAll (table : PermissionTable) : List Permission :=
  table.map mapToModel

/-- `PermissionRepository.findByResource(resource)`: `findMany` filtered
on the resource column, mapped. -/
def permFindByResource (table : PermissionTable) (resource : String) : List Permission :=
  (table.filter (fun p => p.resource == resource)).map mapToModel

/-- `PermissionRepository.delete(id)`: Prisma `delete` throws when no
row has the id; the repository catches and returns `false`, else deletes
the row and returns `true`. -/
def permDelete (table : PermissionTable) (id : String) : PermissionTable × Bool :=
  if table.any (fun p => p.id == id) then
    (table.filter (fun p => !(p.id == id)), true)
  else (table, false)

/-! ## Sample records for concrete evaluation -/

/-- A sample active user enrolled in 2FA with the RFC 4226 secret. -/
def sampleUser : User :=
  { id := "u1", email := "u1@example.org", isActive := true,
    otpEnabled := true, otpSecret := some rfcSecret, lastLoginAt := none }

/-- A sample stored OTP challenge for `sampleUser`, expiring at `t = 300`. -/
def sampleOtp : Otp :=
  { userId := "u1", secret := rfcSecret, expiresAt := 300, verified := false }

/-- A store holding `sampleUser` with the challenge `sampleOtp`. -/
def sampleStore : Store :=
  { users := [sampleUser], otps := [sampleOtp], refreshTokens := [] }

/-- A refresh token owned by another user, used to exercise the ledger. -/
def otherToken : RefreshToken :=
  { userId := "u9", token := "tok-other", expiresAt := 500000000, revoked := false }

/-- A store whose refresh-token ledger holds only `otherToken`. -/
def ledgerStore : Store :=
  { users := [sampleUser], otps := [], refreshTokens := [otherToken] }

/-- A sample permission record for concrete catalog evaluation. -/
def samplePermission : Permission :=
  { id := "p1", name := "user:read", description := "Read users",
    resource := "user", action := "read", createdAt := 0, updatedAt := 0 }

/-! ## General list lemmas used by the theorems -/

/-- Filtering for `p` after filtering for `!p` leaves nothing. -/
theorem filter_not_filter_eq_nil {α : Type} (p : α → Bool) (l : List α) :
    (l.filter (fun a => !(p a))).filter p = [] := by
  induction l with
  | nil => rfl
  | cons x xs ih =>
    by_cases h : p x
    · simp [List.filter_cons, h, ih]
    · simp [List.filter_cons, h, ih]

/-- Removing the `p`-elements does not change the `q`-elements when `q`
excludes `p`. -/
theorem filter_not_filter_of_imp {α : Type} (p q : α → Bool) (l : List α)
    (h : ∀ a, q a = true → p a = false) :
    (l.filter (fun a => !(p a))).filter q = l.filter q := by
  induction l with
  | nil => rfl
  | cons x xs ih =>
    by_cases hp : p x
    · have hq : q x = false := by
        cases hqx : q x
        · rfl
        · rw [h x hqx] at hp; exact absurd hp (by simp)
      simp [List.filter_cons, hp, hq, ih]
    · simp only [List.filter_cons, hp, Bool.not_false, if_true]
      by_cases hq : q x <;> simp [List.filter_cons, hq, ih]

/-- `find?` after mapping a function that replaces each match by a
still-matching record and fixes every non-match. -/
theorem find?_map_replace {α : Type} (p : α → Bool) (f : α → α) (l : List α) (a : α)
    (hfind : l.find? p = some a)
    (hkeep : ∀ x, p x = true → p (f x) = true)
    (hskip : ∀ x, p x = false → f x = x) :
    (l.map f).find? p = some (f a) := by
  induction l with
  | nil => simp at hfind
  | cons x xs ih =>
    by_cases h : p x
    · rw [List.find?_cons_of_pos _ h] at hfind
      injection hfind with hax
      subst hax
      rw [List.map_cons]
      exact List.find?_cons_of_pos _ (hkeep x h)
    · rw [List.find?_cons_of_neg _ h] at hfind
      have hfx : f x = x := hskip x (by simpa using h)
      simp only [List.map_cons]
      rw [List.find?_cons_of_neg _ (by rw [hfx]; exact h)]
      exact ih hfind

/-! ## RFC 4226 test vectors for the embedded HOTP -/

example : hotpCode rfcSecret 0 6 = 755224 := by decide

example : hotpCode rfcSecret 1 6 = 287082 := by decide

example : hotpCode rfcSecret 9 6 = 520489 := by decide

/-! ## Claim theorems -/

/-- C1: `createRefreshToken(userId, tokenValue)` deletes every existing
refresh token owned by `userId` and inserts exactly one new token for
that user, leaving every other user's tokens untouched — so the called
user ends with exactly one token, the at-most-one-token-per-user
invariant is preserved across the call, and the user store is never
consulted (no user-existence check): for every prior store state. -/
theorem createRefreshToken_single_active (days : Nat) (st : Store) (now : Nat)
    (uid tok : String) :
    (createRefreshToken days st now uid tok).fst =
      .ok { userId := uid, token := tok, expiresAt := now + days * 86400, revoked := false }
    ∧ (createRefreshToken days st now uid tok).snd.refreshTokens.filter
        (fun rt => rt.userId == uid) =
      [{ userId := uid, token := tok, expiresAt := now + days * 86400, revoked := false }]
    ∧ (∀ v : String, v ≠ uid →
        (createRefreshToken days st now uid tok).snd.refreshTokens.filter
            (fun rt => rt.userId == v) =
          st.refreshTokens.filter (fun rt => rt.userId == v))
    ∧ ((∀ v : String,
          (st.refreshTokens.filter (fun rt => rt.userId == v)).length ≤ 1) →
        ∀ v : String,
          ((createRefreshToken days st now uid tok).snd.refreshTokens.filter
            (fun rt => rt.userId == v)).length ≤ 1)
    ∧ (∀ users' : List User,
        createRefreshToken days { st with users := users' } now uid tok =
          ((createRefreshToken days st now uid tok).fst,
            { (createRefreshToken days st now uid tok).snd with users := users' })) := by
  refine ⟨rfl, ?_, ?_, ?_, fun _ => rfl⟩
  · simp only [createRefreshToken, Store.createRefreshTokenRecord,
      Store.deleteRefreshTokensByUserId, List.filter_cons]
    simp [filter_not_filter_eq_nil (fun rt : RefreshToken => rt.userId == uid)]
  · intro v hv
    simp only [createRefreshToken, Store.createRefreshTokenRecord,
      Store.deleteRefreshTokensByUserId, List.filter_cons]
    have hhead : (uid == v) = false := by
      simp only [beq_eq_false_iff_ne]; exact fun h => hv h.symm
    simp only [hhead, if_neg Bool.false_ne_true]
    exact filter_not_filter_of_imp _ _ st.refreshTokens
      (fun a ha => by
        have : a.userId = v := by simpa using ha
        simp only [this, beq_eq_false_iff_ne]
        exact fun h => hv h)
  · intro hinv v
    by_cases hv : v = uid
    · subst hv
      simp only [createRefreshToken, Store.createRefreshTokenRecord,
        Store.deleteRefreshTokensByUserId, List.filter_cons]
      simp [filter_not_filter_eq_nil (fun rt : RefreshToken => rt.userId == v)]
    · have heq :
          (createRefreshToken days st now uid tok).snd.refreshTokens.filter
              (fun rt => rt.userId == v) =
            st.refreshTokens.filter (fun rt => rt.userId == v) := by
        simp only [createRefreshToken, Store.createRefreshTokenRecord,
          Store.deleteRefreshTokensByUserId, List.filter_cons]
        have hhead : (uid == v) = false := by
          simp only [beq_eq_false_iff_ne]; exact fun h => hv h.symm
        simp only [hhead, if_neg Bool.false_ne_true]
        exact filter_not_filter_of_imp _ _ st.refreshTokens
          (fun a ha => by
            have : a.userId = v := by simpa using ha
            simp only [this, beq_eq_false_iff_ne]
            exact fun h => hv h)
      rw [heq]; exact hinv v

/-- C1 witness: concrete evaluation on `ledgerStore` (which already
holds a token of user `u9`): after `createRefreshToken` for `u1`, user
`u1` holds exactly one token, user `u9` still holds its original token,
and the per-user bound holds throughout. -/
theorem createRefreshToken_single_active_witness :
    ((createRefreshToken 7 ledgerStore 1000 "u1" "tok-new").snd.refreshTokens.filter
        (fun rt => rt.userId == "u1")).length = 1
    ∧ (createRefreshToken 7 ledgerStore 1000 "u1" "tok-new").snd.refreshTokens.filter
        (fun rt => rt.userId == "u9") =
      ledgerStore.refreshTokens.filter (fun rt => rt.userId == "u9")
    ∧ ∀ v : String,
        ((createRefreshToken 7 ledgerStore 1000 "u1" "tok-new").snd.refreshTokens.filter
          (fun rt => rt.userId == v)).length ≤ 1 := by
  have h := createRefreshToken_single_active 7 ledgerStore 1000 "u1" "tok-new"
  refine ⟨by rw [h.2.1]; rfl, h.2.2.1 "u9" (by decide), h.2.2.2.1 ?_⟩
  intro v
  show ((ledgerStore.refreshTokens.filter (fun rt => rt.userId == v)).length ≤ 1)
  by_cases hv : otherToken.userId = v
  · simp [ledgerStore, List.filter_cons, hv]
  · have : (otherToken.userId == v) = false := by simpa using hv
    simp [ledgerStore, List.filter_cons, this]

/-- C5: `validateRefreshToken(tokenValue)` checks, in order: no match →
`AuthenticationFailure('Invalid refresh token')`; matched token past
expiry → `'Refresh token has expired'` (even when it is also revoked);
unexpired but revoked → `'Refresh token has been revoked'`; otherwise it
returns the token — for every store state, time and token value. -/
theorem validateRefreshToken_check_order (st : Store) (now : Nat) (tok : String) :
    (st.findRefreshTokenByToken tok = none →
      validateRefreshToken st now tok = .error (.authFailure "Invalid refresh token"))
    ∧ (∀ rt, st.findRefreshTokenByToken tok = some rt → now > rt.expiresAt →
        validateRefreshToken st now tok = .error (.authFailure "Refresh token has expired"))
    ∧ (∀ rt, st.findRefreshTokenByToken tok = some rt → ¬now > rt.expiresAt →
        rt.revoked = true →
        validateRefreshToken st now tok = .error (.authFailure "Refresh token has been revoked"))
    ∧ (∀ rt, st.findRefreshTokenByToken tok = some rt → ¬now > rt.expiresAt →
        rt.revoked = false →
        validateRefreshToken st now tok = .ok rt) := by
  refine ⟨fun h => by simp [validateRefreshToken, h], ?_, ?_, ?_⟩
  · intro rt h hexp
    simp [validateRefreshToken, h, RefreshToken.isExpired, hexp]
  · intro rt h hexp hrev
    simp [validateRefreshToken, h, RefreshToken.isExpired, hexp, RefreshToken.isRevoked, hrev]
  · intro rt h hexp hrev
    simp [validateRefreshToken, h, RefreshToken.isExpired, hexp, RefreshToken.isRevoked, hrev]

/-- C5 witness: the four cases at concrete stores — an empty ledger, and
a token that is expired and revoked (the expiry message wins), revoked
only, and live. -/
theorem validateRefreshToken_check_order_witness :
    validateRefreshToken { users := [], otps := [], refreshTokens := [] } 0 "t"
        = .error (.authFailure "Invalid refresh token")
    ∧ validateRefreshToken
        { users := [], otps := [],
          refreshTokens := [{ userId := "u1", token := "t", expiresAt := 5, revoked := true }] }
        9 "t" = .error (.authFailure "Refresh token has expired")
    ∧ validateRefreshToken
        { users := [], otps := [],
          refreshTokens := [{ userId := "u1", token := "t", expiresAt := 5, revoked := true }] }
        3 "t" = .error (.authFailure "Refresh token has been revoked")
    ∧ validateRefreshToken
        { users := [], otps := [],
          refreshTokens := [{ userId := "u1", token := "t", expiresAt := 5, revoked := false }] }
        3 "t" = .ok { userId := "u1", token := "t", expiresAt := 5, revoked := false } := by
  refine ⟨(validateRefreshToken_check_order _ 0 "t").1 (by decide), ?_, ?_, ?_⟩
  · exact (validateRefreshToken_check_order _ 9 "t").2.1
      { userId := "u1", token := "t", expiresAt := 5, revoked := true }
      (by decide) (by decide)
  · exact (validateRefreshToken_check_order _ 3 "t").2.2.1
      { userId := "u1", token := "t", expiresAt := 5, revoked := true }
      (by decide) (by decide) (by decide)
  · exact (validateRefreshToken_check_order _ 3 "t").2.2.2
      { userId := "u1", token := "t", expiresAt := 5, revoked := false }
      (by decide) (by decide) (by decide)

/-- C6: `revokeRefreshToken(tokenValue)` is idempotent: with no matching
token it fails `AuthenticationFailure('Invalid refresh token')`; on an
unrevoked token the first call flips `revoked` to `true`, persists it
and succeeds, and a second call on the resulting store succeeds as a
no-op leaving the store unchanged; on an already-revoked token it
succeeds without writing. -/
theorem revokeRefreshToken_idempotent (st : Store) (tok : String) :
    (st.findRefreshTokenByToken tok = none →
      revokeRefreshToken st tok = (.error (.authFailure "Invalid refresh token"), st))
    ∧ (∀ rt, st.findRefreshTokenByToken tok = some rt → rt.revoked = false →
        revokeRefreshToken st tok = (.ok (), st.updateRefreshToken rt.revoke)
        ∧ (st.updateRefreshToken rt.revoke).findRefreshTokenByToken tok = some rt.revoke
        ∧ rt.revoke.revoked = true
        ∧ revokeRefreshToken (st.updateRefreshToken rt.revoke) tok
            = (.ok (), st.updateRefreshToken rt.revoke))
    ∧ (∀ rt, st.findRefreshTokenByToken tok = some rt → rt.revoked = true →
        revokeRefreshToken st tok = (.ok (), st)) := by
  refine ⟨fun h => by simp [revokeRefreshToken, h], ?_, ?_⟩
  · intro rt h hrev
    have hfirst : revokeRefreshToken st tok = (.ok (), st.updateRefreshToken rt.revoke) := by
      simp [revokeRefreshToken, h, RefreshToken.isRevoked, hrev]
    have h' : st.refreshTokens.find? (fun x => x.token == tok) = some rt := h
    have htok : rt.token = tok := by simpa using List.find?_some h'
    have hfound :
        (st.updateRefreshToken rt.revoke).findRefreshTokenByToken tok = some rt.revoke := by
      have hrepl := find?_map_replace (fun x : RefreshToken => x.token == tok)
        (fun x => if x.token == rt.revoke.token then rt.revoke else x)
        st.refreshTokens rt h'
        (fun x hx => by
          have hxtok : x.token = tok := by simpa using hx
          have hcond : (x.token == rt.revoke.token) = true := by
            show (x.token == rt.token) = true
            simp [hxtok, htok]
          simp only [hcond, if_true]
          show (rt.token == tok) = true
          simp [htok])
        (fun x hx => by
          have hxne : ¬x.token = tok := by simpa using hx
          have hcond : (x.token == rt.revoke.token) = false := by
            show (x.token == rt.token) = false
            rw [htok]
            simpa using hxne
          simp [hcond])
      have hfrt :
          (if rt.token == rt.revoke.token then rt.revoke else rt) = rt.revoke := by
        simp [show (rt.token == rt.revoke.token) = true by
          show (rt.token == rt.token) = true; simp]
      show (st.refreshTokens.map
          (fun x => if x.token == rt.revoke.token then rt.revoke else x)).find?
            (fun x => x.token == tok) = some rt.revoke
      rw [hrepl]
      exact congrArg some hfrt
    refine ⟨hfirst, hfound, rfl, ?_⟩
    show revokeRefreshToken (st.updateRefreshToken rt.revoke) tok
      = (.ok (), st.updateRefreshToken rt.revoke)
    simp only [revokeRefreshToken, hfound]
    simp [RefreshToken.isRevoked, RefreshToken.revoke]
  · intro rt h hrev
    simp [revokeRefreshToken, h, RefreshToken.isRevoked, hrev]

/-- C6 witness: on a ledger holding the unrevoked `tok-other`, a first
revoke flips the flag and persists, a second revoke is a no-op, and a
revoke of an absent value fails `invalid`. -/
theorem revokeRefreshToken_idempotent_witness :
    revokeRefreshToken ledgerStore "tok-other"
        = (.ok (), ledgerStore.updateRefreshToken otherToken.revoke)
    ∧ revokeRefreshToken (ledgerStore.updateRefreshToken otherToken.revoke) "tok-other"
        = (.ok (), ledgerStore.updateRefreshToken otherToken.revoke)
    ∧ revokeRefreshToken ledgerStore "tok-missing"
        = (.error (.authFailure "Invalid refresh token"), ledgerStore) := by
  have h := (revokeRefreshToken_idempotent ledgerStore "tok-other").2.1 otherToken
    (by decide) (by decide)
  exact ⟨h.1, h.2.2.2, (revokeRefreshToken_idempotent ledgerStore "tok-missing").1 (by decide)⟩

/-- C2: `verifyOtp(userId, token)` fails `EntityNotFound` when the user
or the stored Otp is missing; fails `OtpExpired` past expiry regardless
of the token; on a matching, unexpired token marks the Otp verified,
persists it and returns success; on a non-matching unexpired token fails
`OtpInvalid`. -/
theorem verifyOtp_cases (cfg : OtpConfig) (st : Store) (now : Nat) (uid : String)
    (token : Nat) :
    (st.findUserById uid = none →
      verifyOtp cfg st now uid token = (.error (.entityNotFound "User"), st))
    ∧ (∀ u, st.findUserById uid = some u → st.findOtpByUserId uid = none →
        verifyOtp cfg st now uid token = (.error (.entityNotFound "OTP"), st))
    ∧ (∀ u otp, st.findUserById uid = some u → st.findOtpByUserId uid = some otp →
        now > otp.expiresAt →
        verifyOtp cfg st now uid token = (.error .otpExpired, st))
    ∧ (∀ u otp, st.findUserById uid = some u → st.findOtpByUserId uid = some otp →
        ¬now > otp.expiresAt →
        totpVerify otp.secret token now cfg.step cfg.digits = true →
        verifyOtp cfg st now uid token = (.ok true, st.updateOtp otp.markAsVerified))
    ∧ (∀ u otp, st.findUserById uid = some u → st.findOtpByUserId uid = some otp →
        ¬now > otp.expiresAt →
        totpVerify otp.secret token now cfg.step cfg.digits = false →
        verifyOtp cfg st now uid token = (.error .otpInvalid, st)) := by
  refine ⟨fun h => by simp [verifyOtp, h], ?_, ?_, ?_, ?_⟩
  · intro u hu ho
    simp [verifyOtp, hu, ho]
  · intro u otp hu ho hexp
    simp [verifyOtp, hu, ho, Otp.isExpired, hexp]
  · intro u otp hu ho hexp hv
    simp [verifyOtp, hu, ho, Otp.isExpired, hexp, hv]
  · intro u otp hu ho hexp hv
    simp [verifyOtp, hu, ho, Otp.isExpired, hexp, hv]

/-- C2 witness: the five cases concretely — unknown user, user without a
stored Otp, expired challenge, the RFC 4226 code for time step 1
presented at `t = 59` (accepted and the Otp persisted as verified), and
a wrong code at the same instant (rejected, store untouched). -/
theorem verifyOtp_cases_witness :
    verifyOtp defaultOtpConfig sampleStore 59 "nobody" 287082
        = (.error (.entityNotFound "User"), sampleStore)
    ∧ verifyOtp defaultOtpConfig ledgerStore 59 "u1" 287082
        = (.error (.entityNotFound "OTP"), ledgerStore)
    ∧ verifyOtp defaultOtpConfig sampleStore 301 "u1" 287082
        = (.error .otpExpired, sampleStore)
    ∧ verifyOtp defaultOtpConfig sampleStore 59 "u1" 287082
        = (.ok true, sampleStore.updateOtp sampleOtp.markAsVerified)
    ∧ verifyOtp defaultOtpConfig sampleStore 59 "u1" 123456
        = (.error .otpInvalid, sampleStore) := by
  refine ⟨(verifyOtp_cases defaultOtpConfig sampleStore 59 "nobody" 287082).1 (by decide),
    (verifyOtp_cases defaultOtpConfig ledgerStore 59 "u1" 287082).2.1 sampleUser
      (by decide) (by decide),
    (verifyOtp_cases defaultOtpConfig sampleStore 301 "u1" 287082).2.2.1 sampleUser sampleOtp
      (by decide) (by decide) (by decide),
    (verifyOtp_cases defaultOtpConfig sampleStore 59 "u1" 287082).2.2.2.1 sampleUser sampleOtp
      (by decide) (by decide) (by decide) (by decide),
    (verifyOtp_cases defaultOtpConfig sampleStore 59 "u1" 123456).2.2.2.2 sampleUser sampleOtp
      (by decide) (by decide) (by decide) (by decide)⟩

/-- C10: `verifyOtp` leaves the persistent store unchanged on every
failure path — whenever it returns an error (`EntityNotFound`,
`OtpExpired` or `OtpInvalid`), the post-state equals the prior state; in
particular a mismatch never sets the `verified` flag. -/
theorem verifyOtp_failure_preserves_store (cfg : OtpConfig) (st : Store) (now : Nat)
    (uid : String) (token : Nat) (e : DomainError)
    (h : (verifyOtp cfg st now uid token).fst = .error e) :
    (verifyOtp cfg st now uid token).snd = st := by
  rcases hu : st.findUserById uid with _ | u
  · simp [verifyOtp, hu]
  · rcases ho : st.findOtpByUserId uid with _ | otp
    · simp [verifyOtp, hu, ho]
    · by_cases hexp : otp.isExpired now
      · simp [verifyOtp, hu, ho, hexp]
      · by_cases hv : totpVerify otp.secret token now cfg.step cfg.digits
        · exfalso
          simp [verifyOtp, hu, ho, hexp, hv] at h
        · simp [verifyOtp, hu, ho, hexp, hv]

/-- C10 witness: a wrong code presented at `t = 59` fails, and the store
(including the `verified` flag) is exactly the prior store. -/
theorem verifyOtp_failure_preserves_store_witness :
    (verifyOtp defaultOtpConfig sampleStore 59 "u1" 123456).snd = sampleStore :=
  verifyOtp_failure_preserves_store defaultOtpConfig sampleStore 59 "u1" 123456
    .otpInvalid (by decide)

/-- `speakeasy.totp.verify` with the default window reduces to equality
with the single code of the current time step. -/
theorem totpVerify_eq_current_code (s : List Nat) (token t step d : Nat) :
    totpVerify s token t step d = (hotpCode s (t / step) d == token) := by
  have h1 : List.range 1 = [0] := rfl
  simp [totpVerify, totpVerifyWindow, h1]

/-- C3 counterexample: with the RFC 4226 secret stored for `u1` and the
challenge unexpired at `t = 59` (step 30, so the current counter is 1),
the codes computed at counters 0 and 2 — one step before and after — are
rejected with `OtpInvalid`, while the counter-1 code is accepted: there
is no ±1-step tolerance window. -/
theorem verifyOtp_no_skew_window :
    verifyOtp defaultOtpConfig sampleStore 59 "u1" (hotpCode rfcSecret 0 6)
        = (.error .otpInvalid, sampleStore)
    ∧ verifyOtp defaultOtpConfig sampleStore 59 "u1" (hotpCode rfcSecret 2 6)
        = (.error .otpInvalid, sampleStore)
    ∧ verifyOtp defaultOtpConfig sampleStore 59 "u1" (hotpCode rfcSecret 1 6)
        = (.ok true, sampleStore.updateOtp sampleOtp.markAsVerified) :=
  ⟨by decide, by decide, by decide⟩

/-- C3 (amended): before expiry, `verifyOtp` accepts exactly the code of
the current time step — the comparison runs with speakeasy's default
window of 0, so a presented token succeeds iff it equals the HOTP code
at counter `⌊now / step⌋`; codes of the neighbouring steps are accepted
only when they happen to coincide with that code. -/
theorem verifyOtp_accepts_exactly_current_step (cfg : OtpConfig) (st : Store) (now : Nat)
    (uid : String) (token : Nat) (u : User) (otp : Otp)
    (hu : st.findUserById uid = some u)
    (ho : st.findOtpByUserId uid = some otp)
    (hexp : ¬now > otp.expiresAt) :
    (verifyOtp cfg st now uid token).fst = .ok true ↔
      token = hotpCode otp.secret (now / cfg.step) cfg.digits := by
  rw [show (verifyOtp cfg st now uid token) =
      (if totpVerify otp.secret token now cfg.step cfg.digits then
        (.ok true, st.updateOtp otp.markAsVerified)
      else (.error .otpInvalid, st)) by
    simp [verifyOtp, hu, ho, Otp.isExpired, hexp]]
  rw [totpVerify_eq_current_code]
  by_cases hc : hotpCode otp.secret (now / cfg.step) cfg.digits = token
  · simp [hc]
  · have : (hotpCode otp.secret (now / cfg.step) cfg.digits == token) = false := by
      simpa using hc
    simp [this]
    exact fun h => hc h.symm

/-- C3 (amended) witness: at `t = 59` the counter-1 RFC code 287082 is
the unique accepted token, and the counter-0 code 755224 differs from it
and is refused. -/
theorem verifyOtp_accepts_exactly_current_step_witness :
    ((verifyOtp defaultOtpConfig sampleStore 59 "u1" 287082).fst = .ok true ↔
      (287082 : Nat) = hotpCode sampleOtp.secret (59 / defaultOtpConfig.step)
        defaultOtpConfig.digits)
    ∧ ((verifyOtp defaultOtpConfig sampleStore 59 "u1" 755224).fst = .ok true ↔
      (755224 : Nat) = hotpCode sampleOtp.secret (59 / defaultOtpConfig.step)
        defaultOtpConfig.digits) :=
  ⟨verifyOtp_accepts_exactly_current_step defaultOtpConfig sampleStore 59 "u1" 287082
      sampleUser sampleOtp (by decide) (by decide) (by decide),
    verifyOtp_accepts_exactly_current_step defaultOtpConfig sampleStore 59 "u1" 755224
      sampleUser sampleOtp (by decide) (by decide) (by decide)⟩

/-- C4: for a user `uid` and distinct fresh token values, issuing `tok1`
and then `tok2` leaves `validateRefreshToken tok1` failing `invalid`
(the first token was deleted by the replacement) while
`validateRefreshToken tok2` succeeds with the live token, at any
validation time not past the second token's expiry. -/
theorem createRefreshToken_replaces_previous (days : Nat) (st : Store)
    (t0 t1 now2 : Nat) (uid tok1 tok2 : String)
    (hne : tok1 ≠ tok2)
    (hfresh : ∀ rt ∈ st.refreshTokens, rt.token ≠ tok1)
    (hval : ¬now2 > t1 + days * 86400) :
    validateRefreshToken
        (createRefreshToken days (createRefreshToken days st t0 uid tok1).snd t1 uid tok2).snd
        now2 tok1 = .error (.authFailure "Invalid refresh token")
    ∧ validateRefreshToken
        (createRefreshToken days (createRefreshToken days st t0 uid tok1).snd t1 uid tok2).snd
        now2 tok2 =
      .ok { userId := uid, token := tok2, expiresAt := t1 + days * 86400, revoked := false } := by
  have hsnd :
      (createRefreshToken days (createRefreshToken days st t0 uid tok1).snd t1 uid tok2).snd.refreshTokens
        = { userId := uid, token := tok2, expiresAt := t1 + days * 86400,
            revoked := false } ::
          (st.refreshTokens.filter (fun rt => !(rt.userId == uid))).filter
            (fun rt => !(rt.userId == uid)) := by
    simp [createRefreshToken, Store.deleteRefreshTokensByUserId,
      Store.createRefreshTokenRecord, List.filter_cons]
  constructor
  · have hnone :
        (createRefreshToken days (createRefreshToken days st t0 uid tok1).snd t1 uid
            tok2).snd.findRefreshTokenByToken tok1 = none := by
      show List.find? _ _ = none
      rw [hsnd]
      rw [List.find?_cons_of_neg _ (by simpa using fun h : tok2 = tok1 => hne h.symm)]
      refine List.find?_eq_none.mpr (fun x hx => ?_)
      have hmem : x ∈ st.refreshTokens :=
        (List.mem_filter.mp (List.mem_filter.mp hx).1).1
      simpa using hfresh x hmem
    simp [validateRefreshToken, hnone]
  · have hsome :
        (createRefreshToken days (createRefreshToken days st t0 uid tok1).snd t1 uid
            tok2).snd.findRefreshTokenByToken tok2 =
          some { userId := uid, token := tok2, expiresAt := t1 + days * 86400,
                 revoked := false } := by
      show List.find? _ _ = some _
      rw [hsnd]
      exact List.find?_cons_of_pos _ (by simp)
    simp [validateRefreshToken, hsome, RefreshToken.isExpired, RefreshToken.isRevoked, hval]

/-- C4 witness: issuing `t1` then `t2` for `u1` on a ledger that already
holds a foreign token, `t1` no longer validates and `t2` validates to
the live record at the instant of issuance. -/
theorem createRefreshToken_replaces_previous_witness :
    validateRefreshToken
        (createRefreshToken 7 (createRefreshToken 7 ledgerStore 1000 "u1" "t1").snd 1000
          "u1" "t2").snd
        1000 "t1" = .error (.authFailure "Invalid refresh token")
    ∧ validateRefreshToken
        (createRefreshToken 7 (createRefreshToken 7 ledgerStore 1000 "u1" "t1").snd 1000
          "u1" "t2").snd
        1000 "t2" =
      .ok { userId := "u1", token := "t2", expiresAt := 1000 + 7 * 86400, revoked := false } :=
  createRefreshToken_replaces_previous 7 ledgerStore 1000 1000 1000 "u1" "t1" "t2"
    (by decide) (by decide) (by decide)

/-- C7: `verifyTwoFactorToken(userId, token)` fails `EntityNotFound` on
a missing user; fails `AuthenticationFailure` ("not enabled") when
`otpEnabled` is false or the secret is absent; otherwise succeeds on a
matching code and fails `OtpInvalid` on a mismatch; and after
`disableTwoFactorAuth` (which clears secret and flag and persists the
user) every subsequent `verifyTwoFactorToken` for that user fails with
the "not enabled" failure. -/
theorem verifyTwoFactorToken_cases (cfg : OtpConfig) (st : Store) (now : Nat)
    (uid : String) (token : Nat) :
    (st.findUserById uid = none →
      verifyTwoFactorToken cfg st now uid token = .error (.entityNotFound "User"))
    ∧ (∀ u, st.findUserById uid = some u → (u.otpEnabled = false ∨ u.otpSecret = none) →
        verifyTwoFactorToken cfg st now uid token =
          .error (.authFailure "Two-factor authentication is not enabled for this user"))
    ∧ (∀ u s, st.findUserById uid = some u → u.otpEnabled = true → u.otpSecret = some s →
        totpVerify s token now cfg.step cfg.digits = true →
        verifyTwoFactorToken cfg st now uid token = .ok true)
    ∧ (∀ u s, st.findUserById uid = some u → u.otpEnabled = true → u.otpSecret = some s →
        totpVerify s token now cfg.step cfg.digits = false →
        verifyTwoFactorToken cfg st now uid token = .error .otpInvalid)
    ∧ (∀ u, st.findUserById uid = some u →
        disableTwoFactorAuth st uid = (.ok u.disableOtp, st.updateUser u.disableOtp)
        ∧ ∀ now2 token2,
            verifyTwoFactorToken cfg (disableTwoFactorAuth st uid).snd now2 uid token2 =
              .error (.authFailure "Two-factor authentication is not enabled for this user")) := by
  refine ⟨fun h => by simp [verifyTwoFactorToken, h], ?_, ?_, ?_, ?_⟩
  · intro u hu hdis
    rcases hdis with hflag | hsec
    · simp [verifyTwoFactorToken, hu, hflag]
    · by_cases hflag : u.otpEnabled
      · simp [verifyTwoFactorToken, hu, hflag, hsec]
      · simp [verifyTwoFactorToken, hu, hflag]
  · intro u s hu hflag hsec hv
    simp [verifyTwoFactorToken, hu, hflag, hsec, hv]
  · intro u s hu hflag hsec hv
    simp [verifyTwoFactorToken, hu, hflag, hsec, hv]
  · intro u hu
    have hdis : disableTwoFactorAuth st uid = (.ok u.disableOtp, st.updateUser u.disableOtp) := by
      simp [disableTwoFactorAuth, hu]
    refine ⟨hdis, fun now2 token2 => ?_⟩
    have h' : st.users.find? (fun x => x.id == uid) = some u := hu
    have hid : u.id = uid := by simpa using List.find?_some h'
    have hfound :
        (disableTwoFactorAuth st uid).snd.findUserById uid = some u.disableOtp := by
      rw [hdis]
      have hrepl := find?_map_replace (fun x : User => x.id == uid)
        (fun x => if x.id == u.disableOtp.id then u.disableOtp else x)
        st.users u h'
        (fun x hx => by
          have hxid : x.id = uid := by simpa using hx
          have hcond : (x.id == u.disableOtp.id) = true := by
            show (x.id == u.id) = true
            simp [hxid, hid]
          simp only [hcond, if_true]
          show (u.id == uid) = true
          simp [hid])
        (fun x hx => by
          have hxne : ¬x.id = uid := by simpa using hx
          have hcond : (x.id == u.disableOtp.id) = false := by
            show (x.id == u.id) = false
            rw [hid]
            simpa using hxne
          simp [hcond])
      have hfu : (if u.id == u.disableOtp.id then u.disableOtp else u) = u.disableOtp := by
        simp [show (u.id == u.disableOtp.id) = true by
          show (u.id == u.id) = true; simp]
      show (st.users.map
          (fun x => if x.id == u.disableOtp.id then u.disableOtp else x)).find?
            (fun x => x.id == uid) = some u.disableOtp
      rw [hrepl]
      exact congrArg some hfu
    simp [verifyTwoFactorToken, hfound, User.disableOtp]

/-- C7 witness: concrete runs on `sampleStore` — unknown user, disabling
2FA for `u1` and then failing with "not enabled", a matching RFC code at
`t = 59` accepted beforehand, a wrong code rejected. -/
theorem verifyTwoFactorToken_cases_witness :
    verifyTwoFactorToken defaultOtpConfig sampleStore 59 "ghost" 287082
        = .error (.entityNotFound "User")
    ∧ verifyTwoFactorToken defaultOtpConfig sampleStore 59 "u1" 287082 = .ok true
    ∧ verifyTwoFactorToken defaultOtpConfig sampleStore 59 "u1" 123456 = .error .otpInvalid
    ∧ disableTwoFactorAuth sampleStore "u1"
        = (.ok sampleUser.disableOtp, sampleStore.updateUser sampleUser.disableOtp)
    ∧ verifyTwoFactorToken defaultOtpConfig (disableTwoFactorAuth sampleStore "u1").snd
        59 "u1" 287082
        = .error (.authFailure "Two-factor authentication is not enabled for this user") := by
  have hlast := (verifyTwoFactorToken_cases defaultOtpConfig sampleStore 59 "u1"
    287082).2.2.2.2 sampleUser (by decide)
  exact ⟨(verifyTwoFactorToken_cases defaultOtpConfig sampleStore 59 "ghost" 287082).1
      (by decide),
    (verifyTwoFactorToken_cases defaultOtpConfig sampleStore 59 "u1" 287082).2.2.1
      sampleUser rfcSecret (by decide) (by decide) (by decide) (by decide),
    (verifyTwoFactorToken_cases defaultOtpConfig sampleStore 59 "u1" 123456).2.2.2.1
      sampleUser rfcSecret (by decide) (by decide) (by decide) (by decide),
    hlast.1, hlast.2 59 287082⟩

/-- C8: the permission-catalog lookups return an absent result on a
miss — `findById`/`findByName` return `none` and `findByResource`
returns `[]` when no record matches — and `delete(id)` returns a
boolean: `false` when no record has the id (never an error), `true`
when a record was deleted, after which the id is gone; deleting the
same id again always returns `false`. -/
theorem permissionRepository_miss_contract (table : PermissionTable)
    (id name resource : String) :
    ((∀ p ∈ table, p.id ≠ id) → permFindById table id = none)
    ∧ ((∀ p ∈ table, p.name ≠ name) → permFindByName table name = none)
    ∧ ((∀ p ∈ table, p.resource ≠ resource) → permFindByResource table resource = [])
    ∧ ((∀ p ∈ table, p.id ≠ id) → permDelete table id = (table, false))
    ∧ ((∃ p ∈ table, p.id = id) →
        (permDelete table id).snd = true ∧ ∀ q ∈ (permDelete table id).fst, q.id ≠ id)
    ∧ (permDelete (permDelete table id).fst id).snd = false := by
  refine ⟨?_, ?_, ?_, ?_, ?_, ?_⟩
  · intro h
    simp only [permFindById]
    rw [List.find?_eq_none.mpr (fun p hp => by simpa using h p hp)]
    rfl
  · intro h
    simp only [permFindByName]
    rw [List.find?_eq_none.mpr (fun p hp => by simpa using h p hp)]
    rfl
  · intro h
    simp only [permFindByResource]
    rw [List.filter_eq_nil_iff.mpr (fun p hp => by simpa using h p hp)]
    rfl
  · intro h
    have hany : table.any (fun p => p.id == id) = false := by
      simp only [List.any_eq_false]
      intro p hp
      simpa using h p hp
    simp [permDelete, hany]
  · intro h
    obtain ⟨p, hp, hpid⟩ := h
    have hany : table.any (fun p => p.id == id) = true :=
      List.any_eq_true.mpr ⟨p, hp, by simpa using hpid⟩
    refine ⟨by simp [permDelete, hany], fun q hq => ?_⟩
    simp only [permDelete, hany, if_true] at hq
    have := (List.mem_filter.mp hq).2
    simpa using this
  · by_cases hany : table.any (fun p => p.id == id) = true
    · have hfst : (permDelete table id).fst = table.filter (fun p => !(p.id == id)) := by
        simp [permDelete, hany]
      rw [hfst]
      have hnone : (table.filter (fun p => !(p.id == id))).any (fun p => p.id == id) = false := by
        simp only [List.any_eq_false]
        intro p hp
        have := (List.mem_filter.mp hp).2
        simpa using this
      simp [permDelete, hnone]
    · have hfalse : table.any (fun p => p.id == id) = false := by
        simpa using hany
      have hfst : (permDelete table id).fst = table := by
        simp [permDelete, hfalse]
      rw [hfst]
      simp [permDelete, hfalse]

/-- C8 witness: on a one-record catalog, lookups for absent keys return
`none`/`[]`, deleting an absent id returns `false` with the table
unchanged, deleting the present id returns `true` and removes it, and a
repeated delete returns `false`. -/
theorem permissionRepository_miss_contract_witness :
    permFindById [samplePermission] "p2" = none
    ∧ permFindByName [samplePermission] "ghost:read" = none
    ∧ permFindByResource [samplePermission] "ghost" = []
    ∧ permDelete [samplePermission] "p2" = ([samplePermission], false)
    ∧ (permDelete [samplePermission] "p1").snd = true
    ∧ (permDelete (permDelete [samplePermission] "p1").fst "p1").snd = false := by
  have h := permissionRepository_miss_contract [samplePermission] "p2" "ghost:read" "ghost"
  refine ⟨h.1 (by decide), h.2.1 (by decide), h.2.2.1 (by decide), h.2.2.2.1 (by decide),
    ?_, (permissionRepository_miss_contract [samplePermission] "p1" "x" "y").2.2.2.2.2⟩
  exact ((permissionRepository_miss_contract [samplePermission] "p1" "x" "y").2.2.2.2.1
    ⟨samplePermission, by decide, by decide⟩).1

/-- C9: on every access-token validation, `JwtStrategy.validate`
re-fetches the user named by the token's subject and fails
`Unauthorized` when that user is absent or has `isActive = false`; when
the user exists and is active it returns the payload unchanged — for
every payload and user store. -/
theorem jwtValidate_liveness_check (st : Store) (payload : JwtPayload) :
    (st.findUserById payload.sub = none →
      jwtValidate st payload = .error (.unauthorized "User no longer active or not found"))
    ∧ (∀ u, st.findUserById payload.sub = some u → u.isActive = false →
        jwtValidate st payload = .error (.unauthorized "User no longer active or not found"))
    ∧ (∀ u, st.findUserById payload.sub = some u → u.isActive = true →
        jwtValidate st payload = .ok payload) := by
  refine ⟨fun h => by simp [jwtValidate, h], ?_, ?_⟩
  · intro u hu hact
    simp [jwtValidate, hu, hact]
  · intro u hu hact
    simp [jwtValidate, hu, hact]

/-- C9 witness: a payload for the active `u1` passes through unchanged;
the same payload fails `Unauthorized` on an empty user store and on a
store where `u1` is deactivated. -/
theorem jwtValidate_liveness_check_witness :
    jwtValidate sampleStore { sub := "u1", claims := [("email", "u1@example.org")] }
        = .ok { sub := "u1", claims := [("email", "u1@example.org")] }
    ∧ jwtValidate { users := [], otps := [], refreshTokens := [] }
        { sub := "u1", claims := [] }
        = .error (.unauthorized "User no longer active or not found")
    ∧ jwtValidate
        { users := [{ sampleUser with isActive := false }], otps := [], refreshTokens := [] }
        { sub := "u1", claims := [] }
        = .error (.unauthorized "User no longer active or not found") := by
  refine ⟨(jwtValidate_liveness_check sampleStore _).2.2 sampleUser (by decide) (by decide),
    (jwtValidate_liveness_check _ _).1 (by decide),
    (jwtValidate_liveness_check _ _).2.1 { sampleUser with isActive := false }
      (by decide) (by decide)⟩
